import Mathlib

/-!
Verification of the xiaohongshu-mcp engine against its specification.

The Go source is embedded shallowly: pure helpers become Lean functions,
filesystem state becomes an explicit record threaded through the account
store operations, and browser/page effects become environment records whose
fields hold the outcome of each external interaction site.
-/

namespace XhsMcp

/-! ## Account store (`accounts/paths.go`) -/

/-- Model of Go `unicode.IsSpace` restricted to the code points it reports as
white space: the Latin-1 fast path plus the Unicode space ranges. -/
def goIsSpace (c : Char) : Bool :=
  c.toNat = 0x9 || c.toNat = 0xA || c.toNat = 0xB || c.toNat = 0xC ||
  c.toNat = 0xD || c.toNat = 0x20 || c.toNat = 0x85 || c.toNat = 0xA0 ||
  c.toNat = 0x1680 || (0x2000 ≤ c.toNat && c.toNat ≤ 0x200A) ||
  c.toNat = 0x2028 || c.toNat = 0x2029 || c.toNat = 0x202F ||
  c.toNat = 0x205F || c.toNat = 0x3000

/-- Model of Go `strings.TrimSpace`: drop leading and trailing white space. -/
def trimSpaceGo (s : String) : String :=
  String.mk (((s.data.dropWhile goIsSpace).reverse.dropWhile goIsSpace).reverse)

/-- Character class of the account-id pattern `[a-zA-Z0-9_-]`. -/
def isAccountIDChar (c : Char) : Bool :=
  (0x61 ≤ c.toNat && c.toNat ≤ 0x7A) || (0x41 ≤ c.toNat && c.toNat ≤ 0x5A) ||
  (0x30 ≤ c.toNat && c.toNat ≤ 0x39) || c.toNat = 0x5F || c.toNat = 0x2D

/-- Whether a string matches the anchored regexp `^[a-zA-Z0-9_-]+$`
(`accountIDPattern` in `accounts/paths.go`). -/
def matchesAccountIDPattern (s : String) : Bool :=
  !s.data.isEmpty && s.data.all isAccountIDChar

/-- Constant `defaultAccountID` from `accounts/paths.go`. -/
def defaultAccountID : String := "default"

/-- Embedding of `sanitizeAccountID` (`accounts/paths.go:39`): trim, map an
empty result to the default id, otherwise require the pattern match. -/
def sanitizeAccountID (accountID : String) : Except String String :=
  let trimmed := trimSpaceGo accountID
  if trimmed = "" then
    Except.ok defaultAccountID
  else if !matchesAccountIDPattern trimmed then
    Except.error ("invalid account_id: " ++ accountID)
  else
    Except.ok trimmed

/-- Embedding of `ResolveAccountID` (`accounts/paths.go:228`): a direct
wrapper around `sanitizeAccountID`. -/
def ResolveAccountID (accountID : String) : Except String String :=
  sanitizeAccountID accountID

theorem trimSpaceGo_eq_self_of_no_space (s : String)
    (h : s.data.all (fun c => !goIsSpace c)) : trimSpaceGo s = s := by
  unfold trimSpaceGo
  have hall : ∀ c ∈ s.data, !goIsSpace c := by
    simpa [List.all_eq_true] using h
  have h1 : s.data.dropWhile goIsSpace = s.data := by
    cases hd : s.data with
    | nil => simp
    | cons a l =>
        have : goIsSpace a = false := by
          have := hall a (by simp [hd])
          simpa using this
        rw [List.dropWhile_cons, this]
        simp
  rw [h1]
  have h2 : s.data.reverse.dropWhile goIsSpace = s.data.reverse := by
    cases hd : s.data.reverse with
    | nil => simp
    | cons a l =>
        have ha : a ∈ s.data := by
          have : a ∈ s.data.reverse := by simp [hd]
          simpa using this
        have : goIsSpace a = false := by simpa using hall a ha
        rw [List.dropWhile_cons, this]
        simp
  rw [h2, List.reverse_reverse]

theorem accountIDChar_not_space (c : Char) (h : isAccountIDChar c = true) :
    goIsSpace c = false := by
  simp only [isAccountIDChar, Bool.or_eq_true, Bool.and_eq_true,
    decide_eq_true_eq] at h
  rw [Bool.eq_false_iff]
  intro hs
  simp only [goIsSpace, Bool.or_eq_true, Bool.and_eq_true,
    decide_eq_true_eq] at hs
  omega

theorem matches_trim_eq_self (s : String)
    (h : matchesAccountIDPattern s = true) : trimSpaceGo s = s := by
  unfold matchesAccountIDPattern at h
  rw [Bool.and_eq_true] at h
  apply trimSpaceGo_eq_self_of_no_space
  rw [List.all_eq_true] at h ⊢
  intro c hc
  simpa using accountIDChar_not_space c (by simpa using h.2 c hc)

theorem matches_ne_empty (s : String)
    (h : matchesAccountIDPattern s = true) : s ≠ "" := by
  unfold matchesAccountIDPattern at h
  rw [Bool.and_eq_true] at h
  intro heq
  rw [heq] at h
  simpa using h.1

/-- C1 (counterexample): the input `" a "` is neither empty/whitespace-only
nor a match for `^[a-zA-Z0-9_-]+$`, yet `sanitizeAccountID` succeeds on it
(returning the trimmed identifier) instead of failing as the claim demands. -/
theorem c1_resolve_counterexample :
    trimSpaceGo " a " ≠ "" ∧ matchesAccountIDPattern " a " = false ∧
      sanitizeAccountID " a " = Except.ok "a" := by
  refine ⟨by decide, by decide, ?_⟩
  rfl

/-- C1 (amended): `sanitizeAccountID` trims first and classifies the trimmed
string: a pattern-matching input is returned unchanged; a whitespace-only
input resolves to the default id; an input whose trimmed form matches the
pattern returns that trimmed form; only an input whose trimmed form is
nonempty and fails the pattern is rejected with `invalid account_id`. -/
theorem c1_resolve_amended (s : String) :
    (matchesAccountIDPattern s = true → sanitizeAccountID s = Except.ok s) ∧
    (trimSpaceGo s = "" → sanitizeAccountID s = Except.ok defaultAccountID) ∧
    (matchesAccountIDPattern (trimSpaceGo s) = true →
      sanitizeAccountID s = Except.ok (trimSpaceGo s)) ∧
    (trimSpaceGo s ≠ "" → matchesAccountIDPattern (trimSpaceGo s) = false →
      sanitizeAccountID s = Except.error ("invalid account_id: " ++ s)) := by
  refine ⟨?_, ?_, ?_, ?_⟩
  · intro h
    have htrim := matches_trim_eq_self s h
    have hne := matches_ne_empty s h
    simp [sanitizeAccountID, htrim, hne, h]
  · intro h
    simp [sanitizeAccountID, h]
  · intro h
    have hne := matches_ne_empty (trimSpaceGo s) h
    simp [sanitizeAccountID, hne, h]
  · intro hne h
    simp [sanitizeAccountID, hne, h]

/-- C1 (witness): the four branches of the amended statement at concrete
inputs. -/
theorem c1_resolve_amended_witness :
    sanitizeAccountID "user_1-A" = Except.ok "user_1-A" ∧
    sanitizeAccountID "   " = Except.ok defaultAccountID ∧
    sanitizeAccountID " a " = Except.ok "a" ∧
    sanitizeAccountID "a b" = Except.error ("invalid account_id: " ++ "a b") :=
  ⟨(c1_resolve_amended "user_1-A").1 (by decide),
   (c1_resolve_amended "   ").2.1 (by decide),
   (by simpa using (c1_resolve_amended " a ").2.2.1 (by decide)),
   (c1_resolve_amended "a b").2.2.2 (by decide) (by decide)⟩

/-! ## Interact protocol (`LikeAction` / `FavoriteAction`, part_004) -/

/-- Decoded interactInfo field of a note detail entry: the liked and collected flags. -/
structure InteractInfo where
  liked : Bool
  collected : Bool
  deriving DecidableEq, Repr

/-- Snapshot of the page's embedded state at one read site: `none` models a
missing `window.__INITIAL_STATE__.note.noteDetailMap` (the page evaluation
returns the empty string), `some m` the decoded per-feed map. -/
def PageSnapshot : Type := Option (List (String × InteractInfo))

/-- Embedding of `interactAction.getInteractState` (part_004:229): fail when
the embedded state is missing, fail when the feed id is absent from the note
detail map, otherwise return the feed's interact info. -/
def getInteractState (snap : PageSnapshot) (feedID : String) :
    Except String InteractInfo :=
  match snap with
  | none => Except.error "__INITIAL_STATE__ not found"
  | some m =>
    match m.lookup feedID with
    | none => Except.error ("feed " ++ feedID ++ " not found in note detail map")
    | some info => Except.ok info

/-- Outcomes of the external interaction sites of one like/favorite
invocation: the navigation result, the three state-read snapshots (pre-click,
after the first click, after the second click) and the two click results. -/
structure InteractEnv where
  nav : Except String Unit
  snapPre : PageSnapshot
  snapAfter1 : PageSnapshot
  snapAfter2 : PageSnapshot
  click1 : Except String Unit
  click2 : Except String Unit

/-- Embedding of `LikeAction.toggleLike` (part_004:114). The second component
counts the `performClick` invocations on the like toggle. -/
def toggleLike (env : InteractEnv) (feedID : String) (targetLiked : Bool) :
    Except String Unit × Nat :=
  match env.click1 with
  | Except.error e => (Except.error e, 1)
  | Except.ok _ =>
    match getInteractState env.snapAfter1 feedID with
    | Except.error _ => (Except.ok (), 1)
    | Except.ok st =>
      if st.liked = targetLiked then (Except.ok (), 1)
      else
        match env.click2 with
        | Except.error e => (Except.error e, 2)
        | Except.ok _ =>
          match getInteractState env.snapAfter2 feedID with
          | Except.error _ => (Except.ok (), 2)
          | Except.ok _ => (Except.ok (), 2)

/-- Embedding of `LikeAction.perform` (part_004:85): navigate, read the
pre-click state (falling through to `toggleLike` when the read fails),
short-circuit when the state already equals the target, else toggle. -/
def likePerform (env : InteractEnv) (feedID : String) (targetLiked : Bool) :
    Except String Unit × Nat :=
  match env.nav with
  | Except.error e => (Except.error e, 0)
  | Except.ok _ =>
    match getInteractState env.snapPre feedID with
    | Except.error _ => toggleLike env feedID targetLiked
    | Except.ok st =>
      if targetLiked && st.liked then (Except.ok (), 0)
      else if !targetLiked && !st.liked then (Except.ok (), 0)
      else toggleLike env feedID targetLiked

/-- Embedding of `FavoriteAction.toggleFavorite` (part_004:194); identical
control flow on the `collected` field and the collect button. -/
def toggleFavorite (env : InteractEnv) (feedID : String)
    (targetCollected : Bool) : Except String Unit × Nat :=
  match env.click1 with
  | Except.error e => (Except.error e, 1)
  | Except.ok _ =>
    match getInteractState env.snapAfter1 feedID with
    | Except.error _ => (Except.ok (), 1)
    | Except.ok st =>
      if st.collected = targetCollected then (Except.ok (), 1)
      else
        match env.click2 with
        | Except.error e => (Except.error e, 2)
        | Except.ok _ =>
          match getInteractState env.snapAfter2 feedID with
          | Except.error _ => (Except.ok (), 2)
          | Except.ok _ => (Except.ok (), 2)

/-- Embedding of `FavoriteAction.perform` (part_004:165). -/
def favoritePerform (env : InteractEnv) (feedID : String)
    (targetCollected : Bool) : Except String Unit × Nat :=
  match env.nav with
  | Except.error e => (Except.error e, 0)
  | Except.ok _ =>
    match getInteractState env.snapPre feedID with
    | Except.error _ => toggleFavorite env feedID targetCollected
    | Except.ok st =>
      if targetCollected && st.collected then (Except.ok (), 0)
      else if !targetCollected && !st.collected then (Except.ok (), 0)
      else toggleFavorite env feedID targetCollected

/-- Service-level result record (`ActionResult`, part_002). -/
structure ActionResult where
  feedID : String
  success : Bool
  message : String
  deriving DecidableEq, Repr

/-- Embedding of `XiaohongshuService.LikeFeed` (part_002:280): browser setup,
`LikeAction.Like`, and on a nil error a success result. The browser-creation
outcome is the first field. -/
def LikeFeed (browser : Except String Unit) (env : InteractEnv)
    (feedID : String) : Except String ActionResult :=
  match browser with
  | Except.error e => Except.error e
  | Except.ok _ =>
    match (likePerform env feedID true).1 with
    | Except.error e => Except.error e
    | Except.ok _ => Except.ok ⟨feedID, true, "点赞成功或已点赞"⟩

/-- Embedding of `XiaohongshuService.UnlikeFeed` (part_002:299). -/
def UnlikeFeed (browser : Except String Unit) (env : InteractEnv)
    (feedID : String) : Except String ActionResult :=
  match browser with
  | Except.error e => Except.error e
  | Except.ok _ =>
    match (likePerform env feedID false).1 with
    | Except.error e => Except.error e
    | Except.ok _ => Except.ok ⟨feedID, true, "取消点赞成功或未点赞"⟩

/-- Embedding of `XiaohongshuService.FavoriteFeed` (part_002:318): browser
setup, `FavoriteAction.Favorite`, and on a nil error a success result. -/
def FavoriteFeed (browser : Except String Unit) (env : InteractEnv)
    (feedID : String) : Except String ActionResult :=
  match browser with
  | Except.error e => Except.error e
  | Except.ok _ =>
    match (favoritePerform env feedID true).1 with
    | Except.error e => Except.error e
    | Except.ok _ => Except.ok ⟨feedID, true, "收藏成功或已收藏"⟩

/-- Embedding of `XiaohongshuService.UnfavoriteFeed` (part_002:337). -/
def UnfavoriteFeed (browser : Except String Unit) (env : InteractEnv)
    (feedID : String) : Except String ActionResult :=
  match browser with
  | Except.error e => Except.error e
  | Except.ok _ =>
    match (favoritePerform env feedID false).1 with
    | Except.error e => Except.error e
    | Except.ok _ => Except.ok ⟨feedID, true, "取消收藏成功或未收藏"⟩

theorem toggleLike_clicks (env : InteractEnv) (feedID : String) (t : Bool) :
    1 ≤ (toggleLike env feedID t).2 ∧ (toggleLike env feedID t).2 ≤ 2 := by
  unfold toggleLike
  rcases env.click1 with e | u
  · simp
  · rcases getInteractState env.snapAfter1 feedID with e | st
    · simp
    · simp only
      split
      · simp
      · rcases env.click2 with e | u2
        · simp
        · rcases getInteractState env.snapAfter2 feedID with e | st2 <;> simp

theorem toggleFavorite_clicks (env : InteractEnv) (feedID : String) (t : Bool) :
    1 ≤ (toggleFavorite env feedID t).2 ∧ (toggleFavorite env feedID t).2 ≤ 2 := by
  unfold toggleFavorite
  rcases env.click1 with e | u
  · simp
  · rcases getInteractState env.snapAfter1 feedID with e | st
    · simp
    · simp only
      split
      · simp
      · rcases env.click2 with e | u2
        · simp
        · rcases getInteractState env.snapAfter2 feedID with e | st2 <;> simp

/-- C2: in every like/unlike (resp. favorite/unfavorite) invocation whose
pre-click state read succeeds, an already-converged state performs zero
clicks and returns success, a differing state performs at least one click,
and no invocation ever performs more than two clicks. -/
theorem c2_interact_click_bounds (env : InteractEnv) (feedID : String)
    (target : Bool) (st : InteractInfo)
    (hnav : env.nav = Except.ok ())
    (hpre : getInteractState env.snapPre feedID = Except.ok st) :
    ((st.liked = target → likePerform env feedID target = (Except.ok (), 0)) ∧
     (st.liked ≠ target → 1 ≤ (likePerform env feedID target).2) ∧
     (likePerform env feedID target).2 ≤ 2) ∧
    ((st.collected = target →
        favoritePerform env feedID target = (Except.ok (), 0)) ∧
     (st.collected ≠ target → 1 ≤ (favoritePerform env feedID target).2) ∧
     (favoritePerform env feedID target).2 ≤ 2) := by
  have hl := toggleLike_clicks env feedID target
  have hf := toggleFavorite_clicks env feedID target
  simp only [likePerform, favoritePerform, hnav, hpre]
  constructor
  · refine ⟨?_, ?_, ?_⟩
    · intro heq
      cases target <;> simp_all
    · intro hne
      cases target <;> cases hb : st.liked <;> simp_all
    · cases target <;> cases hb : st.liked <;> simp_all
  · refine ⟨?_, ?_, ?_⟩
    · intro heq
      cases target <;> simp_all
    · intro hne
      cases target <;> cases hb : st.collected <;> simp_all
    · cases target <;> cases hb : st.collected <;> simp_all

/-- C2 (witness): concrete already-liked and not-yet-liked invocations. -/
theorem c2_interact_click_bounds_witness :
    likePerform
      { nav := Except.ok (), snapPre := some [("f1", ⟨true, false⟩)],
        snapAfter1 := some [("f1", ⟨true, false⟩)],
        snapAfter2 := some [("f1", ⟨true, false⟩)],
        click1 := Except.ok (), click2 := Except.ok () } "f1" true =
      (Except.ok (), 0) ∧
    1 ≤ (likePerform
      { nav := Except.ok (), snapPre := some [("f1", ⟨false, false⟩)],
        snapAfter1 := some [("f1", ⟨true, false⟩)],
        snapAfter2 := some [("f1", ⟨true, false⟩)],
        click1 := Except.ok (), click2 := Except.ok () } "f1" true).2 :=
  ⟨(c2_interact_click_bounds
      { nav := Except.ok (), snapPre := some [("f1", ⟨true, false⟩)],
        snapAfter1 := some [("f1", ⟨true, false⟩)],
        snapAfter2 := some [("f1", ⟨true, false⟩)],
        click1 := Except.ok (), click2 := Except.ok () }
      "f1" true ⟨true, false⟩ rfl rfl).1.1 rfl,
   (c2_interact_click_bounds
      { nav := Except.ok (), snapPre := some [("f1", ⟨false, false⟩)],
        snapAfter1 := some [("f1", ⟨true, false⟩)],
        snapAfter2 := some [("f1", ⟨true, false⟩)],
        click1 := Except.ok (), click2 := Except.ok () }
      "f1" true ⟨false, false⟩ rfl rfl).1.2.1 (by decide)⟩

/-- C3 (counterexample): invocations in which both clicks happen and the
second post-click re-read succeeds while still reporting `liked = false`
(resp. `collected = false`) for the target like (resp. favorite), yet
`LikeFeed` and `FavoriteFeed` both return a success result to the caller. -/
theorem c3_no_silent_failure_counterexample :
    getInteractState
      (some [("f1", (⟨false, false⟩ : InteractInfo))]) "f1" =
        Except.ok ⟨false, false⟩ ∧
    (InteractInfo.mk false false).liked ≠ true ∧
    (InteractInfo.mk false false).collected ≠ true ∧
    (likePerform
      { nav := Except.ok (), snapPre := some [("f1", ⟨false, false⟩)],
        snapAfter1 := some [("f1", ⟨false, false⟩)],
        snapAfter2 := some [("f1", ⟨false, false⟩)],
        click1 := Except.ok (), click2 := Except.ok () } "f1" true).2 = 2 ∧
    LikeFeed (Except.ok ())
      { nav := Except.ok (), snapPre := some [("f1", ⟨false, false⟩)],
        snapAfter1 := some [("f1", ⟨false, false⟩)],
        snapAfter2 := some [("f1", ⟨false, false⟩)],
        click1 := Except.ok (), click2 := Except.ok () } "f1" =
      Except.ok ⟨"f1", true, "点赞成功或已点赞"⟩ ∧
    (favoritePerform
      { nav := Except.ok (), snapPre := some [("f1", ⟨false, false⟩)],
        snapAfter1 := some [("f1", ⟨false, false⟩)],
        snapAfter2 := some [("f1", ⟨false, false⟩)],
        click1 := Except.ok (), click2 := Except.ok () } "f1" true).2 = 2 ∧
    FavoriteFeed (Except.ok ())
      { nav := Except.ok (), snapPre := some [("f1", ⟨false, false⟩)],
        snapAfter1 := some [("f1", ⟨false, false⟩)],
        snapAfter2 := some [("f1", ⟨false, false⟩)],
        click1 := Except.ok (), click2 := Except.ok () } "f1" =
      Except.ok ⟨"f1", true, "收藏成功或已收藏"⟩ :=
  ⟨rfl, by decide, by decide, rfl, rfl, rfl, rfl⟩

/-- C3 (amended): when the second post-click re-read succeeds and still shows
the state differing from the target, the protocol nevertheless returns nil
after its two click attempts, and the service-level like/unlike/favorite/
unfavorite call reports success to the caller — the unconfirmed state is
tolerated, never surfaced as a failure. -/
theorem c3_no_silent_failure_amended :
    (∀ (env : InteractEnv) (feedID : String) (target : Bool)
       (stp st1 st2 : InteractInfo),
      env.nav = Except.ok () →
      env.click1 = Except.ok () →
      env.click2 = Except.ok () →
      getInteractState env.snapPre feedID = Except.ok stp →
      stp.liked ≠ target →
      getInteractState env.snapAfter1 feedID = Except.ok st1 →
      st1.liked ≠ target →
      getInteractState env.snapAfter2 feedID = Except.ok st2 →
      st2.liked ≠ target →
      likePerform env feedID target = (Except.ok (), 2) ∧
      (target = true → LikeFeed (Except.ok ()) env feedID =
        Except.ok ⟨feedID, true, "点赞成功或已点赞"⟩) ∧
      (target = false → UnlikeFeed (Except.ok ()) env feedID =
        Except.ok ⟨feedID, true, "取消点赞成功或未点赞"⟩)) ∧
    (∀ (env : InteractEnv) (feedID : String) (target : Bool)
       (stp st1 st2 : InteractInfo),
      env.nav = Except.ok () →
      env.click1 = Except.ok () →
      env.click2 = Except.ok () →
      getInteractState env.snapPre feedID = Except.ok stp →
      stp.collected ≠ target →
      getInteractState env.snapAfter1 feedID = Except.ok st1 →
      st1.collected ≠ target →
      getInteractState env.snapAfter2 feedID = Except.ok st2 →
      st2.collected ≠ target →
      favoritePerform env feedID target = (Except.ok (), 2) ∧
      (target = true → FavoriteFeed (Except.ok ()) env feedID =
        Except.ok ⟨feedID, true, "收藏成功或已收藏"⟩) ∧
      (target = false → UnfavoriteFeed (Except.ok ()) env feedID =
        Except.ok ⟨feedID, true, "取消收藏成功或未收藏"⟩)) := by
  constructor
  · intro env feedID target stp st1 st2 hnav hc1 hc2 hpre hp h1 hm1 h2 _hm2
    have hperf : likePerform env feedID target = (Except.ok (), 2) := by
      cases target with
      | false =>
        have hp2 : stp.liked = true := by
          cases hv : stp.liked
          · exact absurd hv hp
          · rfl
        have hm12 : st1.liked = true := by
          cases hv : st1.liked
          · exact absurd hv hm1
          · rfl
        simp only [likePerform, hnav, hpre, hp2, toggleLike, hc1, h1, hm12,
          hc2, h2]
        simp
      | true =>
        have hp2 : stp.liked = false := by
          cases hv : stp.liked
          · rfl
          · exact absurd hv hp
        have hm12 : st1.liked = false := by
          cases hv : st1.liked
          · rfl
          · exact absurd hv hm1
        simp only [likePerform, hnav, hpre, hp2, toggleLike, hc1, h1, hm12,
          hc2, h2]
        simp
    refine ⟨hperf, ?_, ?_⟩
    · intro ht
      subst ht
      simp only [LikeFeed, hperf]
    · intro ht
      subst ht
      simp only [UnlikeFeed, hperf]
  · intro env feedID target stp st1 st2 hnav hc1 hc2 hpre hp h1 hm1 h2 _hm2
    have hperf : favoritePerform env feedID target = (Except.ok (), 2) := by
      cases target with
      | false =>
        have hp2 : stp.collected = true := by
          cases hv : stp.collected
          · exact absurd hv hp
          · rfl
        have hm12 : st1.collected = true := by
          cases hv : st1.collected
          · exact absurd hv hm1
          · rfl
        simp only [favoritePerform, hnav, hpre, hp2, toggleFavorite, hc1, h1,
          hm12, hc2, h2]
        simp
      | true =>
        have hp2 : stp.collected = false := by
          cases hv : stp.collected
          · rfl
          · exact absurd hv hp
        have hm12 : st1.collected = false := by
          cases hv : st1.collected
          · rfl
          · exact absurd hv hm1
        simp only [favoritePerform, hnav, hpre, hp2, toggleFavorite, hc1, h1,
          hm12, hc2, h2]
        simp
    refine ⟨hperf, ?_, ?_⟩
    · intro ht
      subst ht
      simp only [FavoriteFeed, hperf]
    · intro ht
      subst ht
      simp only [UnfavoriteFeed, hperf]

/-- C3 (witness): the amended statement for the like call and the favorite
call at the counterexample input. -/
theorem c3_no_silent_failure_amended_witness :
    LikeFeed (Except.ok ())
      { nav := Except.ok (), snapPre := some [("f1", ⟨false, false⟩)],
        snapAfter1 := some [("f1", ⟨false, false⟩)],
        snapAfter2 := some [("f1", ⟨false, false⟩)],
        click1 := Except.ok (), click2 := Except.ok () } "f1" =
      Except.ok ⟨"f1", true, "点赞成功或已点赞"⟩ ∧
    FavoriteFeed (Except.ok ())
      { nav := Except.ok (), snapPre := some [("f1", ⟨false, false⟩)],
        snapAfter1 := some [("f1", ⟨false, false⟩)],
        snapAfter2 := some [("f1", ⟨false, false⟩)],
        click1 := Except.ok (), click2 := Except.ok () } "f1" =
      Except.ok ⟨"f1", true, "收藏成功或已收藏"⟩ :=
  ⟨(c3_no_silent_failure_amended.1
      { nav := Except.ok (), snapPre := some [("f1", ⟨false, false⟩)],
        snapAfter1 := some [("f1", ⟨false, false⟩)],
        snapAfter2 := some [("f1", ⟨false, false⟩)],
        click1 := Except.ok (), click2 := Except.ok () }
      "f1" true ⟨false, false⟩ ⟨false, false⟩ ⟨false, false⟩
      rfl rfl rfl rfl (by decide) rfl (by decide) rfl (by decide)).2.1 rfl,
   (c3_no_silent_failure_amended.2
      { nav := Except.ok (), snapPre := some [("f1", ⟨false, false⟩)],
        snapAfter1 := some [("f1", ⟨false, false⟩)],
        snapAfter2 := some [("f1", ⟨false, false⟩)],
        click1 := Except.ok (), click2 := Except.ok () }
      "f1" true ⟨false, false⟩ ⟨false, false⟩ ⟨false, false⟩
      rfl rfl rfl rfl (by decide) rfl (by decide) rfl (by decide)).2.1 rfl⟩

/-- C6: a failed interact-state read never propagates as a call failure:
a missing embedded state or an absent feed id makes the read fail; a failed
pre-click read makes `perform` fall through to the click sequence instead of
erroring; a failed re-read after the first or after the second click makes
the toggle return success. Both the like and the favorite action behave so. -/
theorem c6_state_read_failures_nonfatal :
    (∀ feedID : String,
      getInteractState none feedID = Except.error "__INITIAL_STATE__ not found") ∧
    (∀ (m : List (String × InteractInfo)) (feedID : String),
      m.lookup feedID = none →
      getInteractState (some m) feedID =
        Except.error ("feed " ++ feedID ++ " not found in note detail map")) ∧
    (∀ (env : InteractEnv) (feedID : String) (target : Bool) (e : String),
      env.nav = Except.ok () →
      getInteractState env.snapPre feedID = Except.error e →
      likePerform env feedID target = toggleLike env feedID target ∧
      favoritePerform env feedID target = toggleFavorite env feedID target) ∧
    (∀ (env : InteractEnv) (feedID : String) (target : Bool) (e : String),
      env.click1 = Except.ok () →
      getInteractState env.snapAfter1 feedID = Except.error e →
      toggleLike env feedID target = (Except.ok (), 1) ∧
      toggleFavorite env feedID target = (Except.ok (), 1)) ∧
    (∀ (env : InteractEnv) (feedID : String) (target : Bool)
       (st1 : InteractInfo) (e : String),
      env.click1 = Except.ok () →
      getInteractState env.snapAfter1 feedID = Except.ok st1 →
      env.click2 = Except.ok () →
      getInteractState env.snapAfter2 feedID = Except.error e →
      (st1.liked ≠ target → toggleLike env feedID target = (Except.ok (), 2)) ∧
      (st1.collected ≠ target →
        toggleFavorite env feedID target = (Except.ok (), 2))) := by
  refine ⟨fun feedID => rfl, ?_, ?_, ?_, ?_⟩
  · intro m feedID h
    simp [getInteractState, h]
  · intro env feedID target e hnav hpre
    constructor <;> simp [likePerform, favoritePerform, hnav, hpre]
  · intro env feedID target e hc1 h1
    constructor <;> simp [toggleLike, toggleFavorite, hc1, h1]
  · intro env feedID target st1 e hc1 h1 hc2 h2
    constructor
    · intro hne
      simp [toggleLike, hc1, h1, hc2, h2, hne]
    · intro hne
      simp [toggleFavorite, hc1, h1, hc2, h2, hne]

/-- C6 (witness): the read-failure branches at concrete inputs. -/
theorem c6_state_read_failures_nonfatal_witness :
    getInteractState none "f1" =
      Except.error "__INITIAL_STATE__ not found" ∧
    getInteractState (some []) "f1" =
      Except.error ("feed " ++ "f1" ++ " not found in note detail map") ∧
    likePerform
      { nav := Except.ok (), snapPre := none,
        snapAfter1 := some [("f1", ⟨true, false⟩)],
        snapAfter2 := none,
        click1 := Except.ok (), click2 := Except.ok () } "f1" true =
      toggleLike
        { nav := Except.ok (), snapPre := none,
          snapAfter1 := some [("f1", ⟨true, false⟩)],
          snapAfter2 := none,
          click1 := Except.ok (), click2 := Except.ok () } "f1" true ∧
    toggleLike
      { nav := Except.ok (), snapPre := none, snapAfter1 := none,
        snapAfter2 := none,
        click1 := Except.ok (), click2 := Except.ok () } "f1" true =
      (Except.ok (), 1) :=
  ⟨c6_state_read_failures_nonfatal.1 "f1",
   c6_state_read_failures_nonfatal.2.1 [] "f1" rfl,
   (c6_state_read_failures_nonfatal.2.2.1
      { nav := Except.ok (), snapPre := none,
        snapAfter1 := some [("f1", ⟨true, false⟩)],
        snapAfter2 := none,
        click1 := Except.ok (), click2 := Except.ok () }
      "f1" true "__INITIAL_STATE__ not found" rfl rfl).1,
   (c6_state_read_failures_nonfatal.2.2.2.1
      { nav := Except.ok (), snapPre := none, snapAfter1 := none,
        snapAfter2 := none,
        click1 := Except.ok (), click2 := Except.ok () }
      "f1" true "__INITIAL_STATE__ not found" rfl rfl).1⟩

/-! ## State sync primitive (`waitForInitialState`, `xiaohongshu/wait.go`) -/

/-- Outcome of one `page.Evaluate` of the predicate at a polling tick:
an evaluation error equal to `context.Canceled`, any other evaluation error,
a nil result, or a boolean value. -/
inductive EvalOutcome where
  | errCanceled
  | errOther
  | nilResult
  | value (b : Bool)
  deriving DecidableEq, Repr

/-- Result of the wait: success (recording the tick index at which the
predicate was truthy), the internal deadline elapsing, or cancellation. -/
inductive WaitResult where
  | ok (tick : Nat)
  | timedOut
  | canceled
  deriving DecidableEq, Repr

/-- One step of the polling loop of `waitForInitialState` (wait.go:17): the
remaining fuel is the number of ticks the timeout window still allows, `i`
the index of the next tick. A `context.Canceled` evaluation error returns it,
any other error or nil or false result continues, a true result returns. -/
def waitLoop (evals : Nat → EvalOutcome) : Nat → Nat → WaitResult
  | 0, _ => WaitResult.timedOut
  | fuel + 1, i =>
    match evals i with
    | EvalOutcome.errCanceled => WaitResult.canceled
    | EvalOutcome.errOther => waitLoop evals fuel (i + 1)
    | EvalOutcome.nilResult => waitLoop evals fuel (i + 1)
    | EvalOutcome.value true => WaitResult.ok i
    | EvalOutcome.value false => waitLoop evals fuel (i + 1)

/-- Embedding of `waitForInitialState` (wait.go:10): poll the predicate once
per 500ms tick; `maxTicks` is the number of ticks the timeout window admits
before the internal context's deadline fires. -/
def waitForInitialState (evals : Nat → EvalOutcome) (maxTicks : Nat) :
    WaitResult :=
  waitLoop evals maxTicks 0

/-- An outcome on which the loop keeps polling: a non-cancellation evaluation
error, a nil result, or a false predicate value. -/
def continuesPolling (o : EvalOutcome) : Prop :=
  o = EvalOutcome.errOther ∨ o = EvalOutcome.nilResult ∨
    o = EvalOutcome.value false

instance (o : EvalOutcome) : Decidable (continuesPolling o) := by
  unfold continuesPolling
  infer_instance

theorem waitLoop_ok (evals : Nat → EvalOutcome) (fuel i j : Nat)
    (hij : i ≤ j) (hlt : j < i + fuel)
    (htrue : evals j = EvalOutcome.value true)
    (hbefore : ∀ k, i ≤ k → k < j → continuesPolling (evals k)) :
    waitLoop evals fuel i = WaitResult.ok j := by
  induction fuel generalizing i with
  | zero => omega
  | succ n ih =>
    rcases Nat.eq_or_lt_of_le hij with heq | hlt2
    · subst heq
      simp [waitLoop, htrue]
    · have hcont : continuesPolling (evals i) := hbefore i le_rfl hlt2
      have hstep : waitLoop evals (n + 1) i = waitLoop evals n (i + 1) := by
        rcases hcont with h | h | h <;> simp [waitLoop, h]
      rw [hstep]
      exact ih (i + 1) hlt2 (by omega) (fun k hk1 hk2 => hbefore k (by omega) hk2)

theorem waitLoop_canceled (evals : Nat → EvalOutcome) (fuel i j : Nat)
    (hij : i ≤ j) (hlt : j < i + fuel)
    (hcan : evals j = EvalOutcome.errCanceled)
    (hbefore : ∀ k, i ≤ k → k < j → continuesPolling (evals k)) :
    waitLoop evals fuel i = WaitResult.canceled := by
  induction fuel generalizing i with
  | zero => omega
  | succ n ih =>
    rcases Nat.eq_or_lt_of_le hij with heq | hlt2
    · subst heq
      simp [waitLoop, hcan]
    · have hcont : continuesPolling (evals i) := hbefore i le_rfl hlt2
      have hstep : waitLoop evals (n + 1) i = waitLoop evals n (i + 1) := by
        rcases hcont with h | h | h <;> simp [waitLoop, h]
      rw [hstep]
      exact ih (i + 1) hlt2 (by omega) (fun k hk1 hk2 => hbefore k (by omega) hk2)

theorem waitLoop_timedOut (evals : Nat → EvalOutcome) (fuel i : Nat)
    (hall : ∀ k, i ≤ k → k < i + fuel → continuesPolling (evals k)) :
    waitLoop evals fuel i = WaitResult.timedOut := by
  induction fuel generalizing i with
  | zero => rfl
  | succ n ih =>
    have hcont : continuesPolling (evals i) := hall i le_rfl (by omega)
    have hstep : waitLoop evals (n + 1) i = waitLoop evals n (i + 1) := by
      rcases hcont with h | h | h <;> simp [waitLoop, h]
    rw [hstep]
    exact ih (i + 1) (fun k hk1 hk2 => hall k (by omega) (by omega))

/-- C5: `waitForInitialState` times out when the predicate never evaluates
truthy (and is never cancelled) within the window; it returns success at the
first truthy tick, without waiting out the window; evaluation errors are
treated as "not yet true" and polling continues, except `context.Canceled`,
which aborts immediately at its tick. -/
theorem c5_await_condition (evals : Nat → EvalOutcome) (maxTicks : Nat) :
    ((∀ k, k < maxTicks → continuesPolling (evals k)) →
      waitForInitialState evals maxTicks = WaitResult.timedOut) ∧
    (∀ j, j < maxTicks → evals j = EvalOutcome.value true →
      (∀ k, k < j → continuesPolling (evals k)) →
      waitForInitialState evals maxTicks = WaitResult.ok j) ∧
    (∀ j, j < maxTicks → evals j = EvalOutcome.errCanceled →
      (∀ k, k < j → continuesPolling (evals k)) →
      waitForInitialState evals maxTicks = WaitResult.canceled) := by
  refine ⟨?_, ?_, ?_⟩
  · intro hall
    exact waitLoop_timedOut evals maxTicks 0
      (fun k _ hk => hall k (by omega))
  · intro j hj htrue hbefore
    exact waitLoop_ok evals maxTicks 0 j (Nat.zero_le j) (by omega) htrue
      (fun k _ hk => hbefore k hk)
  · intro j hj hcan hbefore
    exact waitLoop_canceled evals maxTicks 0 j (Nat.zero_le j) (by omega) hcan
      (fun k _ hk => hbefore k hk)

/-- C5 (witness): a window of 4 ticks in which the predicate is truthy at
tick 2 after a transient evaluation error, a never-truthy window, and a
cancellation at tick 1. -/
theorem c5_await_condition_witness :
    waitForInitialState
      (fun i => if i = 0 then EvalOutcome.errOther
        else if i = 1 then EvalOutcome.value false
        else EvalOutcome.value true) 4 = WaitResult.ok 2 ∧
    waitForInitialState (fun _ => EvalOutcome.value false) 4 =
      WaitResult.timedOut ∧
    waitForInitialState
      (fun i => if i = 0 then EvalOutcome.nilResult
        else EvalOutcome.errCanceled) 4 = WaitResult.canceled :=
  ⟨(c5_await_condition _ 4).2.1 2 (by decide) (by decide)
      (fun k hk => by
        interval_cases k
        · exact Or.inl rfl
        · exact Or.inr (Or.inr rfl)),
   (c5_await_condition _ 4).1 (fun k _ => Or.inr (Or.inr rfl)),
   (c5_await_condition _ 4).2.2 1 (by decide) (by decide)
      (fun k hk => by
        interval_cases k
        exact Or.inr (Or.inl rfl))⟩

/-! ## Publish-image pipeline (`XiaohongshuService.PublishContent`, part_002) -/

/-- East-Asian Wide/Fullwidth code-point ranges. Models the external
`go-runewidth` collaborator per the spec's display-width rule: an
East-Asian-width character counts 2 units, any other character 1. -/
def isEastAsianWide (n : Nat) : Bool :=
  (0x1100 ≤ n && n ≤ 0x115F) || (0x2E80 ≤ n && n ≤ 0x303E) ||
  (0x3041 ≤ n && n ≤ 0x33FF) || (0x3400 ≤ n && n ≤ 0x4DBF) ||
  (0x4E00 ≤ n && n ≤ 0x9FFF) || (0xA000 ≤ n && n ≤ 0xA4CF) ||
  (0xAC00 ≤ n && n ≤ 0xD7A3) || (0xF900 ≤ n && n ≤ 0xFAFF) ||
  (0xFE30 ≤ n && n ≤ 0xFE4F) || (0xFF00 ≤ n && n ≤ 0xFF60) ||
  (0xFFE0 ≤ n && n ≤ 0xFFE6) ||
  (0x20000 ≤ n && n ≤ 0x2FFFD) || (0x30000 ≤ n && n ≤ 0x3FFFD)

/-- Width of one character under the display-width rule
(`runewidth.RuneWidth`). -/
def runeWidth (c : Char) : Nat :=
  if isEastAsianWide c.toNat then 2 else 1

/-- Display width of a string (`runewidth.StringWidth`): the sum of its
characters' widths. -/
def stringWidth (s : String) : Nat :=
  (s.data.map runeWidth).sum

/-- Embedding of `PublishRequest` (part_002:30). -/
structure PublishRequest where
  title : String
  content : String
  images : List String
  tags : List String

/-- Embedding of `PublishResponse` (part_002:51). -/
structure PublishResponse where
  title : String
  content : String
  images : Nat
  status : String
  deriving DecidableEq, Repr

/-- Resource-acquiring phases of `PublishContent`, in execution order:
`processImages` resolves the account images directory and downloads
(`s.processImages`), `publish` opens the browser session and runs the
publish action (`s.publishContent`). -/
inductive PubStep where
  | processImages
  | publish
  deriving DecidableEq, Repr

/-- Outcomes of the external collaborators of one `PublishContent` call. -/
structure PublishEnv where
  processImagesResult : Except String (List String)
  publishResult : Except String Unit

/-- Embedding of `XiaohongshuService.PublishContent` (part_002:174): validate
the title width first (failing fast with no steps performed), then process
images, then publish. The second component is the trace of resource-acquiring
phases actually entered. -/
def PublishContent (env : PublishEnv) (req : PublishRequest) :
    Except String PublishResponse × List PubStep :=
  if stringWidth req.title > 40 then
    (Except.error "标题长度超过限制", [])
  else
    match env.processImagesResult with
    | Except.error e => (Except.error e, [PubStep.processImages])
    | Except.ok paths =>
      match env.publishResult with
      | Except.error e =>
          (Except.error e, [PubStep.processImages, PubStep.publish])
      | Except.ok _ =>
          (Except.ok ⟨req.title, req.content, paths.length, "发布完成"⟩,
            [PubStep.processImages, PubStep.publish])

/-- C4: a title wider than 40 display units fails fast with the title-length
error and an empty resource trace; 40 Latin characters measure 40 units and
pass the check (the trace is nonempty for every environment), 20 CJK
characters measure 40 units and pass, 21 CJK characters measure 42 units and
fail, and the end-to-end 41-Latin-character title fails with no resources
acquired. -/
theorem c4_title_width :
    (∀ (env : PublishEnv) (req : PublishRequest),
      stringWidth req.title > 40 →
      PublishContent env req = (Except.error "标题长度超过限制", [])) ∧
    stringWidth (String.mk (List.replicate 40 'a')) = 40 ∧
    stringWidth (String.mk (List.replicate 20 '中')) = 40 ∧
    stringWidth (String.mk (List.replicate 21 '中')) = 42 ∧
    stringWidth (String.mk (List.replicate 41 'a')) = 41 ∧
    (∀ (env : PublishEnv) (content : String) (images tags : List String),
      (PublishContent env
        ⟨String.mk (List.replicate 40 'a'), content, images, tags⟩).2 ≠ [] ∧
      (PublishContent env
        ⟨String.mk (List.replicate 20 '中'), content, images, tags⟩).2 ≠ [] ∧
      PublishContent env
        ⟨String.mk (List.replicate 21 '中'), content, images, tags⟩ =
        (Except.error "标题长度超过限制", []) ∧
      PublishContent env
        ⟨String.mk (List.replicate 41 'a'), content, images, tags⟩ =
        (Except.error "标题长度超过限制", [])) := by
  have h40a : stringWidth (String.mk (List.replicate 40 'a')) = 40 := by decide
  have h20c : stringWidth (String.mk (List.replicate 20 '中')) = 40 := by decide
  have h21c : stringWidth (String.mk (List.replicate 21 '中')) = 42 := by decide
  have h41a : stringWidth (String.mk (List.replicate 41 'a')) = 41 := by decide
  have hfail : ∀ (env : PublishEnv) (req : PublishRequest),
      stringWidth req.title > 40 →
      PublishContent env req = (Except.error "标题长度超过限制", []) := by
    intro env req h
    simp [PublishContent, h]
  refine ⟨hfail, h40a, h20c, h21c, h41a, ?_⟩
  intro env content images tags
  refine ⟨?_, ?_, hfail env _ (by rw [h21c]; omega),
    hfail env _ (by rw [h41a]; omega)⟩
  · simp only [PublishContent, h40a]
    norm_num
    rcases env.processImagesResult with e | p
    · simp
    · rcases env.publishResult with e | u <;> simp
  · simp only [PublishContent, h20c]
    norm_num
    rcases env.processImagesResult with e | p
    · simp
    · rcases env.publishResult with e | u <;> simp

/-- C4 (witness): the fail-fast branch at a concrete environment and
41-character title. -/
theorem c4_title_width_witness :
    PublishContent ⟨Except.ok [], Except.ok ()⟩
      ⟨String.mk (List.replicate 41 'a'), "c", [], []⟩ =
      (Except.error "标题长度超过限制", []) ∧
    (PublishContent ⟨Except.ok [], Except.ok ()⟩
      ⟨String.mk (List.replicate 40 'a'), "c", [], []⟩).2 ≠ [] :=
  ⟨c4_title_width.1 ⟨Except.ok [], Except.ok ()⟩
      ⟨String.mk (List.replicate 41 'a'), "c", [], []⟩ (by decide),
   (c4_title_width.2.2.2.2.2 ⟨Except.ok [], Except.ok ()⟩ "c" [] []).1⟩

/-! ## Search filters and search flow (part_005) -/

/-- Embedding of `SearchFilters` (part_005:25). -/
structure SearchFilters where
  sort : String
  noteType : String
  publishTime : String
  searchScope : String
  distance : String
  deriving DecidableEq, Repr

def SortDefault : String := "comprehensive"
def SortLatest : String := "latest"
def SortMostLikes : String := "most_likes"
def SortMostComments : String := "most_comments"
def SortMostFavorites : String := "most_favorites"

def NoteTypeAll : String := "all"
def NoteTypeVideo : String := "video"
def NoteTypeImage : String := "image"

def PublishAll : String := "all"
def PublishDay : String := "day"
def PublishWeek : String := "week"
def PublishHalfYr : String := "half_year"

def ScopeAll : String := "all"
def ScopeSeen : String := "seen"
def ScopeUnseen : String := "unseen"
def ScopeFollowed : String := "followed"

def DistanceAll : String := "all"
def DistanceSameCity : String := "same_city"
def DistanceNearby : String := "nearby"

/-- Embedding of the `sortOptionLabels` map (part_005:59). -/
def sortOptionLabels : List (String × String) :=
  [(SortDefault, "综合"), (SortLatest, "最新"), (SortMostLikes, "最多点赞"),
   (SortMostComments, "最多评论"), (SortMostFavorites, "最多收藏")]

/-- Embedding of the `noteTypeLabels` map (part_005:67). -/
def noteTypeLabels : List (String × String) :=
  [(NoteTypeAll, "不限"), (NoteTypeVideo, "视频"), (NoteTypeImage, "图文")]

/-- Embedding of the `publishTimeLabels` map (part_005:73). -/
def publishTimeLabels : List (String × String) :=
  [(PublishAll, "不限"), (PublishDay, "一天内"), (PublishWeek, "一周内"),
   (PublishHalfYr, "半年内")]

/-- Embedding of the `searchScopeLabels` map (part_005:80). -/
def searchScopeLabels : List (String × String) :=
  [(ScopeAll, "不限"), (ScopeSeen, "已看过"), (ScopeUnseen, "未看过"),
   (ScopeFollowed, "已关注")]

/-- Embedding of the `distanceLabels` map (part_005:87). -/
def distanceLabels : List (String × String) :=
  [(DistanceAll, "不限"), (DistanceSameCity, "同城"), (DistanceNearby, "附近")]

/-- Resolution of an omitted (empty) field value to its default, as done by
the leading `if`s of `NewSearchFilters`. -/
def resolveField (v dflt : String) : String :=
  if v = "" then dflt else v

/-- Embedding of `NewSearchFilters` (part_005:94): resolve empty fields to
their defaults, then validate each field against its label map in order,
failing with a message naming the field. -/
def NewSearchFilters (sort noteType publishTime searchScope distance : String) :
    Except String SearchFilters :=
  let sort := resolveField sort SortDefault
  let noteType := resolveField noteType NoteTypeAll
  let publishTime := resolveField publishTime PublishAll
  let searchScope := resolveField searchScope ScopeAll
  let distance := resolveField distance DistanceAll
  if sortOptionLabels.lookup sort = none then
    Except.error ("invalid sort option: " ++ sort)
  else if noteTypeLabels.lookup noteType = none then
    Except.error ("invalid note_type option: " ++ noteType)
  else if publishTimeLabels.lookup publishTime = none then
    Except.error ("invalid publish_time option: " ++ publishTime)
  else if searchScopeLabels.lookup searchScope = none then
    Except.error ("invalid search_scope option: " ++ searchScope)
  else if distanceLabels.lookup distance = none then
    Except.error ("invalid distance option: " ++ distance)
  else
    Except.ok ⟨sort, noteType, publishTime, searchScope, distance⟩

/-- C7: all-omitted construction yields the documented defaults; a successful
construction returns exactly the resolved field values, each present in its
enumeration; construction succeeds iff every resolved value is enumerated;
and a failure carries the message of the first offending field, which is
indeed outside its enumeration. -/
theorem c7_search_filters (s n p sc d : String) :
    (NewSearchFilters "" "" "" "" "" =
      Except.ok ⟨SortDefault, NoteTypeAll, PublishAll, ScopeAll, DistanceAll⟩) ∧
    (∀ f, NewSearchFilters s n p sc d = Except.ok f →
      f = ⟨resolveField s SortDefault, resolveField n NoteTypeAll,
           resolveField p PublishAll, resolveField sc ScopeAll,
           resolveField d DistanceAll⟩ ∧
      sortOptionLabels.lookup f.sort ≠ none ∧
      noteTypeLabels.lookup f.noteType ≠ none ∧
      publishTimeLabels.lookup f.publishTime ≠ none ∧
      searchScopeLabels.lookup f.searchScope ≠ none ∧
      distanceLabels.lookup f.distance ≠ none) ∧
    ((∃ f, NewSearchFilters s n p sc d = Except.ok f) ↔
      (sortOptionLabels.lookup (resolveField s SortDefault) ≠ none ∧
       noteTypeLabels.lookup (resolveField n NoteTypeAll) ≠ none ∧
       publishTimeLabels.lookup (resolveField p PublishAll) ≠ none ∧
       searchScopeLabels.lookup (resolveField sc ScopeAll) ≠ none ∧
       distanceLabels.lookup (resolveField d DistanceAll) ≠ none)) ∧
    (∀ e, NewSearchFilters s n p sc d = Except.error e →
      (sortOptionLabels.lookup (resolveField s SortDefault) = none ∧
        e = "invalid sort option: " ++ resolveField s SortDefault) ∨
      (noteTypeLabels.lookup (resolveField n NoteTypeAll) = none ∧
        e = "invalid note_type option: " ++ resolveField n NoteTypeAll) ∨
      (publishTimeLabels.lookup (resolveField p PublishAll) = none ∧
        e = "invalid publish_time option: " ++ resolveField p PublishAll) ∨
      (searchScopeLabels.lookup (resolveField sc ScopeAll) = none ∧
        e = "invalid search_scope option: " ++ resolveField sc ScopeAll) ∨
      (distanceLabels.lookup (resolveField d DistanceAll) = none ∧
        e = "invalid distance option: " ++ resolveField d DistanceAll)) := by
  refine ⟨by rfl, ?_⟩
  by_cases h1 : sortOptionLabels.lookup (resolveField s SortDefault) = none
  · refine ⟨?_, ?_, ?_⟩ <;> simp [NewSearchFilters, h1]
  · by_cases h2 : noteTypeLabels.lookup (resolveField n NoteTypeAll) = none
    · refine ⟨?_, ?_, ?_⟩ <;> simp [NewSearchFilters, h1, h2]
    · by_cases h3 :
        publishTimeLabels.lookup (resolveField p PublishAll) = none
      · refine ⟨?_, ?_, ?_⟩ <;> simp [NewSearchFilters, h1, h2, h3]
      · by_cases h4 :
          searchScopeLabels.lookup (resolveField sc ScopeAll) = none
        · refine ⟨?_, ?_, ?_⟩ <;> simp [NewSearchFilters, h1, h2, h3, h4]
        · by_cases h5 :
            distanceLabels.lookup (resolveField d DistanceAll) = none
          · refine ⟨?_, ?_, ?_⟩ <;> simp [NewSearchFilters, h1, h2, h3, h4, h5]
          · have hok : NewSearchFilters s n p sc d =
                Except.ok ⟨resolveField s SortDefault, resolveField n NoteTypeAll,
                  resolveField p PublishAll, resolveField sc ScopeAll,
                  resolveField d DistanceAll⟩ := by
              simp [NewSearchFilters, h1, h2, h3, h4, h5]
            refine ⟨?_, ?_, ?_⟩
            · intro f hf
              rw [hok] at hf
              injection hf with hf3
              subst hf3
              exact ⟨rfl, h1, h2, h3, h4, h5⟩
            · exact ⟨fun _ => ⟨h1, h2, h3, h4, h5⟩, fun _ => ⟨_, hok⟩⟩
            · intro e he
              rw [hok] at he
              cases he

/-- C7 (witness): a default construction, one with explicit valid values, and
one failing on the note-type field. -/
theorem c7_search_filters_witness :
    NewSearchFilters "" "" "" "" "" =
      Except.ok ⟨SortDefault, NoteTypeAll, PublishAll, ScopeAll, DistanceAll⟩ ∧
    (∃ f, NewSearchFilters "latest" "" "day" "" "nearby" = Except.ok f) ∧
    (∀ e, NewSearchFilters "" "bogus" "" "" "" = Except.error e →
      (sortOptionLabels.lookup (resolveField "" SortDefault) = none ∧
        e = "invalid sort option: " ++ resolveField "" SortDefault) ∨
      (noteTypeLabels.lookup (resolveField "bogus" NoteTypeAll) = none ∧
        e = "invalid note_type option: " ++ resolveField "bogus" NoteTypeAll) ∨
      (publishTimeLabels.lookup (resolveField "" PublishAll) = none ∧
        e = "invalid publish_time option: " ++ resolveField "" PublishAll) ∨
      (searchScopeLabels.lookup (resolveField "" ScopeAll) = none ∧
        e = "invalid search_scope option: " ++ resolveField "" ScopeAll) ∨
      (distanceLabels.lookup (resolveField "" DistanceAll) = none ∧
        e = "invalid distance option: " ++ resolveField "" DistanceAll)) :=
  ⟨(c7_search_filters "" "" "" "" "").1,
   (c7_search_filters "latest" "" "day" "" "nearby").2.2.1.mpr
     (by refine ⟨?_, ?_, ?_, ?_, ?_⟩ <;> decide),
   (c7_search_filters "" "bogus" "" "" "").2.2.2⟩

/-- A decoded feed entry. Its declaration lives outside the embedded sources;
the search flow only carries the decoded list through unchanged, so the two
identifying fields suffice here. -/
structure Feed where
  id : String
  xsecToken : String
  deriving DecidableEq, Repr

/-- Bytes kept verbatim by Go `url.QueryEscape`: ASCII alphanumerics and
`-`, `_`, `.`, `~`. -/
def isUnreservedByte (n : Nat) : Bool :=
  (0x41 ≤ n && n ≤ 0x5A) || (0x61 ≤ n && n ≤ 0x7A) ||
  (0x30 ≤ n && n ≤ 0x39) || n = 0x2D || n = 0x5F || n = 0x2E || n = 0x7E

def hexDigitUpper (n : Nat) : Char :=
  if n < 10 then Char.ofNat (0x30 + n) else Char.ofNat (0x41 + n - 10)

/-- Model of Go `url.QueryEscape`: keep unreserved bytes, turn a space into
`+`, percent-encode every other byte of the UTF-8 encoding. -/
def queryEscape (s : String) : String :=
  String.mk (s.toUTF8.toList.foldr
    (fun b acc =>
      let n := b.toNat
      if n = 0x20 then '+' :: acc
      else if isUnreservedByte n then Char.ofNat n :: acc
      else '%' :: hexDigitUpper (n / 16) :: hexDigitUpper (n % 16) :: acc)
    [])

/-- Embedding of `makeSearchURL` (part_005:208); `url.Values.Encode` emits the
keys in sorted order, so `keyword` precedes `source`. -/
def makeSearchURL (keyword : String) : String :=
  "https://www.xiaohongshu.com/search_result?keyword=" ++ queryEscape keyword ++
    "&source=web_explore_feed"

/-- Embedding of `SearchFilters.isDefault` (part_005:136), including the nil
receiver, which counts as default. -/
def isDefaultFilters : Option SearchFilters → Bool
  | none => true
  | some f =>
    f.sort == SortDefault && f.noteType == NoteTypeAll &&
    f.publishTime == PublishAll && f.searchScope == ScopeAll &&
    f.distance == DistanceAll

/-- The page interactions a `Search` call performs, in order. -/
inductive SearchStep where
  | navigate (url : String)
  | waitInitial
  | applyFilters (f : SearchFilters)
  | extract
  deriving DecidableEq, Repr

/-- Outcomes of the external interaction sites of one `Search` call. -/
structure SearchEnv where
  navResult : Except String Unit
  waitResult : Except String Unit
  applyResult : SearchFilters → Except String Unit
  extractResult : Except String (List Feed)

/-- The trailing extract-and-decode phase of `Search` (evaluate the embedded
state, reject an empty result, decode the feeds list). -/
def searchExtract (env : SearchEnv) (steps : List SearchStep) :
    Except String (List Feed) × List SearchStep :=
  match env.extractResult with
  | Except.error e => (Except.error e, steps ++ [SearchStep.extract])
  | Except.ok feeds => (Except.ok feeds, steps ++ [SearchStep.extract])

/-- Embedding of `SearchAction.Search` (part_005:153): navigate to the search
URL, wait for the embedded search state, apply the filter panel only when
filters are non-nil and non-default, then extract the feeds. -/
def Search (env : SearchEnv) (keyword : String)
    (filters : Option SearchFilters) :
    Except String (List Feed) × List SearchStep :=
  let url := makeSearchURL keyword
  match env.navResult with
  | Except.error e => (Except.error e, [SearchStep.navigate url])
  | Except.ok _ =>
    match env.waitResult with
    | Except.error e =>
        (Except.error e, [SearchStep.navigate url, SearchStep.waitInitial])
    | Except.ok _ =>
      match filters with
      | some f =>
        if !isDefaultFilters (some f) then
          match env.applyResult f with
          | Except.error e =>
              (Except.error e, [SearchStep.navigate url,
                SearchStep.waitInitial, SearchStep.applyFilters f])
          | Except.ok _ =>
              searchExtract env [SearchStep.navigate url,
                SearchStep.waitInitial, SearchStep.applyFilters f]
        else
          searchExtract env [SearchStep.navigate url, SearchStep.waitInitial]
      | none =>
          searchExtract env [SearchStep.navigate url, SearchStep.waitInitial]

/-- C10: searching with a filters value whose five fields all equal their
defaults is indistinguishable from searching with nil filters — the same
result and the same step trace, with no filter-panel interaction. -/
theorem c10_default_filters_like_nil (env : SearchEnv) (keyword : String)
    (f : SearchFilters)
    (h1 : f.sort = SortDefault) (h2 : f.noteType = NoteTypeAll)
    (h3 : f.publishTime = PublishAll) (h4 : f.searchScope = ScopeAll)
    (h5 : f.distance = DistanceAll) :
    Search env keyword (some f) = Search env keyword none ∧
    ∀ g, SearchStep.applyFilters g ∉ (Search env keyword (some f)).2 := by
  have hdef : isDefaultFilters (some f) = true := by
    simp [isDefaultFilters, h1, h2, h3, h4, h5]
  have heq : Search env keyword (some f) = Search env keyword none := by
    simp [Search, hdef]
  refine ⟨heq, ?_⟩
  rw [heq]
  intro g
  simp only [Search]
  rcases env.navResult with e | u
  · simp
  · rcases env.waitResult with e | u2
    · simp
    · simp only [searchExtract]
      rcases env.extractResult with e | feeds <;> simp

/-- C10 (witness): the equivalence at a concrete environment and keyword. -/
theorem c10_default_filters_like_nil_witness :
    Search
      ⟨Except.ok (), Except.ok (), fun _ => Except.ok (), Except.ok []⟩
      "lean"
      (some ⟨SortDefault, NoteTypeAll, PublishAll, ScopeAll, DistanceAll⟩) =
    Search
      ⟨Except.ok (), Except.ok (), fun _ => Except.ok (), Except.ok []⟩
      "lean" none :=
  (c10_default_filters_like_nil
    ⟨Except.ok (), Except.ok (), fun _ => Except.ok (), Except.ok []⟩
    "lean" ⟨SortDefault, NoteTypeAll, PublishAll, ScopeAll, DistanceAll⟩
    rfl rfl rfl rfl rfl).1

/-! ## Account store state model (C8, C9) -/

theorem dropWhile_dropWhile {α : Type} (p : α → Bool) (l : List α) :
    (l.dropWhile p).dropWhile p = l.dropWhile p := by
  induction l with
  | nil => simp
  | cons a t ih =>
    by_cases h : p a = true
    · simp [List.dropWhile_cons, h, ih]
    · simp only [Bool.not_eq_true] at h
      simp [List.dropWhile_cons, h]

theorem dropWhile_head?_false {α : Type} (p : α → Bool) (l : List α) (c : α)
    (h : (l.dropWhile p).head? = some c) : p c = false := by
  induction l with
  | nil => simp at h
  | cons a t ih =>
    by_cases hp : p a = true
    · rw [List.dropWhile_cons, if_pos hp] at h
      exact ih h
    · simp only [Bool.not_eq_true] at hp
      rw [List.dropWhile_cons, hp] at h
      simp only [Bool.false_eq_true, if_false, List.head?_cons,
        Option.some.injEq] at h
      rw [← h]
      exact hp

theorem dropWhile_eq_self_of_head? {α : Type} (p : α → Bool) (l : List α)
    (h : ∀ c, l.head? = some c → p c = false) : l.dropWhile p = l := by
  cases l with
  | nil => rfl
  | cons a t =>
    have := h a rfl
    simp [List.dropWhile_cons, this]

theorem head?_of_front {α : Type} {l₁ l₂ : List α} {c : α}
    (hp : l₁ <+: l₂) (h : l₁.head? = some c) : l₂.head? = some c := by
  rcases hp with ⟨t, ht⟩
  rw [← ht]
  cases l₁ with
  | nil => simp at h
  | cons a r =>
    simp only [List.head?_cons, Option.some.injEq] at h
    simp [h]

theorem trimSpaceGo_idem (s : String) :
    trimSpaceGo (trimSpaceGo s) = trimSpaceGo s := by
  unfold trimSpaceGo
  set p := goIsSpace
  set l := s.data
  simp only [String.data]
  set r := ((l.dropWhile p).reverse.dropWhile p).reverse with hr
  have hpre : r <+: l.dropWhile p := by
    have hsuf : (l.dropWhile p).reverse.dropWhile p <:+ (l.dropWhile p).reverse :=
      List.dropWhile_suffix p
    have := List.reverse_prefix.mpr hsuf
    simpa [hr] using this
  have hstep1 : r.dropWhile p = r := by
    apply dropWhile_eq_self_of_head?
    intro c hc
    exact dropWhile_head?_false p l c (head?_of_front hpre hc)
  rw [hstep1]
  have hstep2 : r.reverse.dropWhile p = r.reverse := by
    rw [hr, List.reverse_reverse]
    exact dropWhile_dropWhile p (l.dropWhile p).reverse
  rw [hstep2, List.reverse_reverse]

/-- Embedding of `AccountMeta` (`accounts/paths.go:23`); times are nanosecond counts, with
`0` playing the role of Go's zero `time.Time` (`IsZero`). -/
structure AccountMeta where
  remark : String
  createdAt : Nat
  updatedAt : Nat
  deriving DecidableEq, Repr

/-- Embedding of `AccountInfo` (`accounts/paths.go:29`). -/
structure AccountInfo where
  id : String
  remark : String
  createdAt : Nat
  updatedAt : Nat
  deriving DecidableEq, Repr

/-- The accounts-root slice of the filesystem: which per-account directories
and images directories exist, and each account's `meta.json` content (stored
decoded; serialization round-trips). -/
structure FsState where
  accountDirs : List String
  imagesDirs : List String
  metas : List (String × AccountMeta)
  deriving DecidableEq, Repr

/-- Model of `os.MkdirAll`: create the directory only when absent. -/
def insertIfAbsent (x : String) (l : List String) : List String :=
  if x ∈ l then l else l ++ [x]

/-- Model of `os.WriteFile` on a meta path: replace the entry when present, else
append it. -/
def setMeta (id : String) (m : AccountMeta) :
    List (String × AccountMeta) → List (String × AccountMeta)
  | [] => [(id, m)]
  | (k, v) :: rest =>
    if k = id then (id, m) :: rest else (k, v) :: setMeta id m rest

/-- Embedding of `saveAccountMeta` (`accounts/paths.go:161`): it writes a copy whose remark is
trimmed. -/
def saveMetaValue (m : AccountMeta) : AccountMeta :=
  ⟨trimSpaceGo m.remark, m.createdAt, m.updatedAt⟩

/-- Embedding of `accountDir` (`accounts/paths.go:87`): sanitize the id and ensure the
per-account directory, returning the resolved directory name. -/
def accountDirFs (accountID : String) (fs : FsState) :
    Except String (String × FsState) :=
  match sanitizeAccountID accountID with
  | Except.error e => Except.error e
  | Except.ok id =>
      Except.ok (id, { fs with accountDirs := insertIfAbsent id fs.accountDirs })

/-- Embedding of `CookiesPath` (`accounts/paths.go:175`). -/
def CookiesPathFs (accountID : String) (fs : FsState) :
    Except String (String × FsState) :=
  match accountDirFs accountID fs with
  | Except.error e => Except.error e
  | Except.ok (id, fs1) =>
      Except.ok ("data/accounts/" ++ id ++ "/cookies.json", fs1)

/-- Embedding of `ImagesDir` (`accounts/paths.go:185`). -/
def ImagesDirFs (accountID : String) (fs : FsState) :
    Except String (String × FsState) :=
  match accountDirFs accountID fs with
  | Except.error e => Except.error e
  | Except.ok (id, fs1) =>
      Except.ok ("data/accounts/" ++ id ++ "/images",
        { fs1 with imagesDirs := insertIfAbsent id fs1.imagesDirs })

/-- Embedding of `defaultAccountMeta` (`accounts/paths.go:143`). -/
def defaultAccountMeta (now : Nat) : AccountMeta := ⟨"", now, now⟩

/-- Embedding of `normalizeAccountMeta` (`accounts/paths.go:151`); `now` is the value
`time.Now()` would produce at this call. -/
def normalizeAccountMeta (m : AccountMeta) (now : Nat) : AccountMeta :=
  let created := if m.createdAt = 0 then now else m.createdAt
  let updated := if m.updatedAt = 0 then created else m.updatedAt
  ⟨m.remark, created, updated⟩

/-- Embedding of `ensureMeta` (`accounts/paths.go:114`): load the meta file, creating it
with fresh timestamps when absent, else normalize and rewrite it. Returns
the in-memory meta (untrimmed remark, as in the source). -/
def ensureMetaFs (accountID : String) (now : Nat) (fs : FsState) :
    Except String (AccountMeta × FsState) :=
  match accountDirFs accountID fs with
  | Except.error e => Except.error e
  | Except.ok (id, fs1) =>
    match fs1.metas.lookup id with
    | none =>
        let meta := defaultAccountMeta now
        Except.ok (meta,
          { fs1 with metas := setMeta id (saveMetaValue meta) fs1.metas })
    | some stored =>
        let meta := normalizeAccountMeta stored now
        Except.ok (meta,
          { fs1 with metas := setMeta id (saveMetaValue meta) fs1.metas })

/-- Embedding of `EnsureAccount` (`accounts/paths.go:209`): cookies path, images
directory, meta file. -/
def EnsureAccountFs (accountID : String) (now : Nat) (fs : FsState) :
    Except String FsState :=
  match CookiesPathFs accountID fs with
  | Except.error e => Except.error e
  | Except.ok (_, fs1) =>
    match ImagesDirFs accountID fs1 with
    | Except.error e => Except.error e
    | Except.ok (_, fs2) =>
      match ensureMetaFs accountID now fs2 with
      | Except.error e => Except.error e
      | Except.ok (_, fs3) => Except.ok fs3

theorem mem_insertIfAbsent (x : String) (l : List String) :
    x ∈ insertIfAbsent x l := by
  unfold insertIfAbsent
  by_cases h : x ∈ l <;> simp [h]

theorem insertIfAbsent_of_mem {x : String} {l : List String} (h : x ∈ l) :
    insertIfAbsent x l = l := by
  simp [insertIfAbsent, h]

theorem lookup_setMeta_self (id : String) (m : AccountMeta)
    (l : List (String × AccountMeta)) :
    (setMeta id m l).lookup id = some m := by
  induction l with
  | nil => simp [setMeta, List.lookup]
  | cons kv rest ih =>
    rcases kv with ⟨k, v⟩
    by_cases h : k = id
    · simp [setMeta, h, List.lookup]
    · simp only [setMeta, if_neg h, List.lookup]
      have : (id == k) = false := by
        simp
        exact fun he => h he.symm
      simp [this, ih]

theorem setMeta_of_lookup_eq {id : String} {m : AccountMeta}
    {l : List (String × AccountMeta)} (h : l.lookup id = some m) :
    setMeta id m l = l := by
  induction l with
  | nil => simp [List.lookup] at h
  | cons kv rest ih =>
    rcases kv with ⟨k, v⟩
    by_cases hk : k = id
    · subst hk
      simp only [List.lookup, beq_self_eq_true, Option.some.injEq] at h
      simp [setMeta, h]
    · have hb : (id == k) = false := by
        simp
        exact fun he => hk he.symm
      simp only [List.lookup, hb] at h
      simp [setMeta, hk, ih h]

theorem sanitizeAccountID_of_matches (s : String)
    (h : matchesAccountIDPattern s = true) :
    sanitizeAccountID s = Except.ok s := by
  have htrim := matches_trim_eq_self s h
  have hne := matches_ne_empty s h
  simp [sanitizeAccountID, htrim, hne, h]

/-- The meta content `ensureMeta` leaves in memory for an account: fresh
default meta when the file is absent, the normalized stored meta otherwise. -/
def metaAfter (fs : FsState) (id : String) (now : Nat) : AccountMeta :=
  match fs.metas.lookup id with
  | none => defaultAccountMeta now
  | some m => normalizeAccountMeta m now

theorem ensureMetaFs_eq (accountID id : String) (now : Nat) (fs : FsState)
    (hs : sanitizeAccountID accountID = Except.ok id) :
    ensureMetaFs accountID now fs = Except.ok (metaAfter fs id now,
      { accountDirs := insertIfAbsent id fs.accountDirs,
        imagesDirs := fs.imagesDirs,
        metas := setMeta id (saveMetaValue (metaAfter fs id now)) fs.metas }) := by
  simp only [ensureMetaFs, accountDirFs, hs, metaAfter]
  cases hlook : fs.metas.lookup id <;> simp

theorem EnsureAccountFs_eq (accountID id : String) (now : Nat) (fs : FsState)
    (hs : sanitizeAccountID accountID = Except.ok id) :
    EnsureAccountFs accountID now fs = Except.ok
      { accountDirs := insertIfAbsent id fs.accountDirs,
        imagesDirs := insertIfAbsent id fs.imagesDirs,
        metas := setMeta id (saveMetaValue (metaAfter fs id now)) fs.metas } := by
  simp only [EnsureAccountFs, CookiesPathFs, ImagesDirFs, ensureMetaFs,
    accountDirFs, hs, metaAfter]
  simp only [insertIfAbsent_of_mem (mem_insertIfAbsent id fs.accountDirs)]
  cases hlook : fs.metas.lookup id <;> simp

theorem metaAfter_pos (fs : FsState) (id : String) (t : Nat) (ht : 0 < t) :
    (metaAfter fs id t).createdAt ≠ 0 ∧ (metaAfter fs id t).updatedAt ≠ 0 := by
  unfold metaAfter
  cases fs.metas.lookup id with
  | none => simp [defaultAccountMeta]; omega
  | some m =>
    simp only [normalizeAccountMeta]
    constructor
    · by_cases h : m.createdAt = 0 <;> simp [h] <;> omega
    · by_cases h : m.updatedAt = 0 <;> by_cases h2 : m.createdAt = 0 <;>
        simp [h, h2] <;> omega

theorem normalizeAccountMeta_of_nonzero (m : AccountMeta) (t : Nat)
    (hc : m.createdAt ≠ 0) (hu : m.updatedAt ≠ 0) :
    normalizeAccountMeta m t = m := by
  simp [normalizeAccountMeta, hc, hu]

theorem saveMetaValue_idem (m : AccountMeta) :
    saveMetaValue (saveMetaValue m) = saveMetaValue m := by
  simp [saveMetaValue, trimSpaceGo_idem]

/-- C8: `EnsureAccount` is idempotent — after a successful first call at a
nonzero clock value, a second call (at any clock value) succeeds and leaves
the filesystem state, in particular the account's metadata with its
`createdAt` and `updatedAt`, completely unchanged. -/
theorem c8_ensure_account_idempotent (accountID : String) (t1 t2 : Nat)
    (fs0 fs1 : FsState) (ht1 : 0 < t1)
    (h1 : EnsureAccountFs accountID t1 fs0 = Except.ok fs1) :
    EnsureAccountFs accountID t2 fs1 = Except.ok fs1 := by
  cases hs : sanitizeAccountID accountID with
  | error e =>
    rw [show EnsureAccountFs accountID t1 fs0 = Except.error e by
      simp [EnsureAccountFs, CookiesPathFs, accountDirFs, hs]] at h1
    cases h1
  | ok id =>
    rw [EnsureAccountFs_eq accountID id t1 fs0 hs] at h1
    injection h1 with h1'
    subst h1'
    rw [EnsureAccountFs_eq accountID id t2 _ hs]
    set M := metaAfter fs0 id t1 with hMdef
    have hposc : M.createdAt ≠ 0 := (metaAfter_pos fs0 id t1 ht1).1
    have hposu : M.updatedAt ≠ 0 := (metaAfter_pos fs0 id t1 ht1).2
    have hlook : (setMeta id (saveMetaValue M) fs0.metas).lookup id =
        some (saveMetaValue M) := lookup_setMeta_self id _ fs0.metas
    have hM : metaAfter
        { accountDirs := insertIfAbsent id fs0.accountDirs,
          imagesDirs := insertIfAbsent id fs0.imagesDirs,
          metas := setMeta id (saveMetaValue M) fs0.metas }
        id t2 = saveMetaValue M := by
      unfold metaAfter
      show (match (setMeta id (saveMetaValue M) fs0.metas).lookup id with
        | none => defaultAccountMeta t2
        | some m => normalizeAccountMeta m t2) = saveMetaValue M
      rw [hlook]
      exact normalizeAccountMeta_of_nonzero _ t2
        (by simpa [saveMetaValue] using hposc)
        (by simpa [saveMetaValue] using hposu)
    simp only [hM, saveMetaValue_idem,
      insertIfAbsent_of_mem (mem_insertIfAbsent id fs0.accountDirs),
      insertIfAbsent_of_mem (mem_insertIfAbsent id fs0.imagesDirs),
      setMeta_of_lookup_eq hlook]

/-- C8 (witness): a fresh account created at clock 1, re-ensured at clock 2. -/
theorem c8_ensure_account_idempotent_witness :
    EnsureAccountFs "acct" 2
      ⟨["acct"], ["acct"], [("acct", ⟨"", 1, 1⟩)]⟩ =
      Except.ok ⟨["acct"], ["acct"], [("acct", ⟨"", 1, 1⟩)]⟩ :=
  c8_ensure_account_idempotent "acct" 1 2 ⟨[], [], []⟩
    ⟨["acct"], ["acct"], [("acct", ⟨"", 1, 1⟩)]⟩ (by decide) (by rfl)

/-- The `AccountInfo` view built from an entry name and its meta
(`ListAccounts` loop body, `accounts/paths.go:270`). -/
def mkAccountInfo (id : String) (m : AccountMeta) : AccountInfo :=
  ⟨id, m.remark, m.createdAt, m.updatedAt⟩

/-- The entry loop of `ListAccounts` (`accounts/paths.go:261`): ensure each
entry's meta and accumulate its info, aborting on the first error. -/
def listLoop (now : Nat) :
    List String → FsState → List AccountInfo →
    Except String (List AccountInfo × FsState)
  | [], fs, acc => Except.ok (acc, fs)
  | id :: rest, fs, acc =>
    match ensureMetaFs id now fs with
    | Except.error e => Except.error e
    | Except.ok (meta, fs1) => listLoop now rest fs1 (acc ++ [mkAccountInfo id meta])

/-- Insertion step of the id-ascending sort. -/
def insertInfo (x : AccountInfo) : List AccountInfo → List AccountInfo
  | [] => [x]
  | y :: rest => if x.id ≤ y.id then x :: y :: rest else y :: insertInfo x rest

/-- The `sort.Slice(infos, infos[i].ID < infos[j].ID)` call
(`accounts/paths.go:295`), modeled as an insertion sort consistent with the
same comparator. -/
def sortInfos : List AccountInfo → List AccountInfo
  | [] => []
  | x :: rest => insertInfo x (sortInfos rest)

/-- Embedding of `ListAccounts` (`accounts/paths.go:249`): walk the existing
account directories, ensure the default account when its directory is
missing, sort ascending by identifier. -/
def ListAccountsFs (now : Nat) (fs : FsState) :
    Except String (List AccountInfo × FsState) :=
  match listLoop now fs.accountDirs fs [] with
  | Except.error e => Except.error e
  | Except.ok (infos, fs1) =>
    if defaultAccountID ∈ fs1.accountDirs then
      Except.ok (sortInfos infos, fs1)
    else
      match EnsureAccountFs defaultAccountID now fs1 with
      | Except.error e => Except.error e
      | Except.ok fs2 =>
        match ensureMetaFs defaultAccountID now fs2 with
        | Except.error e => Except.error e
        | Except.ok (meta, fs3) =>
            Except.ok
              (sortInfos (infos ++ [mkAccountInfo defaultAccountID meta]), fs3)

theorem insertInfo_perm (x : AccountInfo) (l : List AccountInfo) :
    (insertInfo x l).Perm (x :: l) := by
  induction l with
  | nil => exact List.Perm.refl _
  | cons y rest ih =>
    by_cases h : x.id ≤ y.id
    · simp [insertInfo, h]
    · simp only [insertInfo, if_neg h]
      exact (ih.cons y).trans (List.Perm.swap x y rest)

theorem sortInfos_perm (l : List AccountInfo) : (sortInfos l).Perm l := by
  induction l with
  | nil => exact List.Perm.refl _
  | cons x rest ih =>
    exact (insertInfo_perm x (sortInfos rest)).trans (ih.cons x)

theorem insertInfo_pairwise (x : AccountInfo) (l : List AccountInfo)
    (h : l.Pairwise (fun a b => a.id ≤ b.id)) :
    (insertInfo x l).Pairwise (fun a b => a.id ≤ b.id) := by
  induction l with
  | nil => simp [insertInfo]
  | cons y rest ih =>
    rcases List.pairwise_cons.mp h with ⟨hy, hrest⟩
    by_cases hle : x.id ≤ y.id
    · rw [insertInfo, if_pos hle]
      refine List.pairwise_cons.mpr ⟨?_, h⟩
      intro b hb
      rcases List.mem_cons.mp hb with hb | hb
      · rw [hb]; exact hle
      · exact le_trans hle (hy b hb)
    · rw [insertInfo, if_neg hle]
      refine List.pairwise_cons.mpr ⟨?_, ih hrest⟩
      intro b hb
      have hmem : b ∈ x :: rest :=
        (insertInfo_perm x rest).mem_iff.mp hb
      rcases List.mem_cons.mp hmem with hb2 | hb2
      · rw [hb2]
        exact le_of_not_le hle
      · exact hy b hb2

theorem sortInfos_pairwise (l : List AccountInfo) :
    (sortInfos l).Pairwise (fun a b => a.id ≤ b.id) := by
  induction l with
  | nil => simp [sortInfos]
  | cons x rest ih => exact insertInfo_pairwise x (sortInfos rest) ih

theorem listLoop_spec (now : Nat) (entries : List String) :
    ∀ (fs : FsState) (acc : List AccountInfo),
    (∀ id ∈ entries, matchesAccountIDPattern id = true) →
    (∀ id ∈ entries, id ∈ fs.accountDirs) →
    ∃ infos fs1, listLoop now entries fs acc = Except.ok (infos, fs1) ∧
      infos.map AccountInfo.id = acc.map AccountInfo.id ++ entries ∧
      fs1.accountDirs = fs.accountDirs := by
  induction entries with
  | nil =>
    intro fs acc _ _
    exact ⟨acc, fs, rfl, by simp, rfl⟩
  | cons id rest ih =>
    intro fs acc hinv hsub
    have hid := hinv id (by simp)
    have hmem := hsub id (by simp)
    have hs := sanitizeAccountID_of_matches id hid
    have hens := ensureMetaFs_eq id id now fs hs
    rw [insertIfAbsent_of_mem hmem] at hens
    rcases ih { fs with metas := setMeta id (saveMetaValue (metaAfter fs id now)) fs.metas }
        (acc ++ [mkAccountInfo id (metaAfter fs id now)])
        (fun i hi => hinv i (by simp [hi]))
        (fun i hi => hsub i (by simp [hi])) with
      ⟨infos, fs1, hrun, hids, hdirs⟩
    refine ⟨infos, fs1, ?_, ?_, hdirs⟩
    · rw [show listLoop now (id :: rest) fs acc =
        listLoop now rest
          { fs with metas := setMeta id (saveMetaValue (metaAfter fs id now)) fs.metas }
          (acc ++ [mkAccountInfo id (metaAfter fs id now)]) by
          simp [listLoop, hens]]
      exact hrun
    · rw [hids]
      simp [mkAccountInfo]

/-- C9: whenever `ListAccounts` returns a result (over any store state whose
existing account-directory names are valid identifiers, the invariant the
store maintains for every directory it creates), that result contains an
entry for the default account — even when no account was ever created — and
is sorted ascending by account identifier. -/
theorem c9_list_accounts (now : Nat) (fs : FsState)
    (hinv : ∀ id ∈ fs.accountDirs, matchesAccountIDPattern id = true)
    (infos : List AccountInfo) (fs2 : FsState)
    (hok : ListAccountsFs now fs = Except.ok (infos, fs2)) :
    (∃ info ∈ infos, info.id = defaultAccountID) ∧
    infos.Pairwise (fun a b => a.id ≤ b.id) := by
  rcases listLoop_spec now fs.accountDirs fs [] hinv (fun i hi => hi) with
    ⟨infos0, fs1, hrun, hids, hdirs⟩
  unfold ListAccountsFs at hok
  simp only [hrun] at hok
  by_cases hdef : defaultAccountID ∈ fs1.accountDirs
  · rw [if_pos hdef] at hok
    injection hok with hpair
    injection hpair with hinfos hfs
    subst hinfos
    refine ⟨?_, sortInfos_pairwise infos0⟩
    have hmem0 : defaultAccountID ∈ infos0.map AccountInfo.id := by
      rw [hids]
      simpa using hdirs ▸ hdef
    rcases List.mem_map.mp hmem0 with ⟨info, hin, hid⟩
    exact ⟨info, (sortInfos_perm infos0).mem_iff.mpr hin, hid⟩
  · rw [if_neg hdef] at hok
    have hsd : sanitizeAccountID defaultAccountID =
        Except.ok defaultAccountID :=
      sanitizeAccountID_of_matches defaultAccountID (by decide)
    simp only [EnsureAccountFs_eq defaultAccountID defaultAccountID now fs1 hsd]
      at hok
    simp only [fun fsx =>
      ensureMetaFs_eq defaultAccountID defaultAccountID now fsx hsd] at hok
    injection hok with hpair
    injection hpair with hinfos hfs
    subst hinfos
    refine ⟨?_, sortInfos_pairwise _⟩
    exact ⟨mkAccountInfo defaultAccountID
        (metaAfter
          { accountDirs := insertIfAbsent defaultAccountID fs1.accountDirs,
            imagesDirs := insertIfAbsent defaultAccountID fs1.imagesDirs,
            metas := setMeta defaultAccountID
              (saveMetaValue (metaAfter fs1 defaultAccountID now)) fs1.metas }
          defaultAccountID now),
      (sortInfos_perm _).mem_iff.mpr (by simp), rfl⟩

/-- C9 (witness): the never-created state — the default account is
materialized and returned alone. -/
theorem c9_list_accounts_witness :
    ∃ infos fs2, ListAccountsFs 5 ⟨[], [], []⟩ = Except.ok (infos, fs2) ∧
      (∃ info ∈ infos, info.id = defaultAccountID) ∧
      infos.Pairwise (fun a b => a.id ≤ b.id) := by
  refine ⟨[⟨"default", "", 5, 5⟩],
    ⟨["default"], ["default"], [("default", ⟨"", 5, 5⟩)]⟩, rfl, ?_⟩
  exact c9_list_accounts 5 ⟨[], [], []⟩ (by simp) _ _ rfl

end XhsMcp
